import Mathlib

/-!
# Verification of the freedraw synchronization core

Shallow embedding of the collaborative-whiteboard sync core in
`src/useCollaboration.js` (the current version of the hook): per-element
ownership enforcement (`handleChange` / `assignOwnerMetadata`), the
poll-time merge (`fetchCanvasState`), and the save scheduler
(`flushPendingSave`, debounce, write completion, watchdog).

JavaScript values are modelled as follows: element records become the
`Element` structure (geometry and type-specific payload collapsed into an
opaque `payload` field — the sync core copies them verbatim), the
`customData` ownership block becomes `Option CustomData` (`none` when the
record has no `customData` object), and the JS truthiness test `!owner`
on a string becomes `ownerTruthy` (`undefined` and the empty string are
both falsy).
-/

namespace Freedraw

/-- Acting identity, from `getOrCreateUserIdentity`: `browserId` is the
stable per-device id, `username` / `color` tag ownership metadata. -/
structure Identity where
  browserId : String
  username : String
  color : String
deriving Repr, DecidableEq

/-- The ownership metadata block stored under `element.customData`.
Each field is `none` when the JS property is absent. -/
structure CustomData where
  createdBy : Option String := none
  createdByUsername : Option String := none
  createdByColor : Option String := none
deriving Repr, DecidableEq

/-- A drawable element as seen by the sync core. `payload` collapses the
fields the core copies verbatim (geometry, type, points, …); `version` is
Excalidraw's monotonically increasing per-element revision counter. -/
structure Element where
  id : String
  version : Nat := 0
  isDeleted : Bool := false
  payload : Nat := 0
  customData : Option CustomData := none
deriving Repr, DecidableEq

/-- `element.customData?.createdBy`: `none` when `customData` is absent or
has no `createdBy` property. -/
def ownerOf (e : Element) : Option String :=
  e.customData.bind (·.createdBy)

/-- JS truthiness of an owner string: `undefined` and `""` are falsy. -/
def ownerTruthy : Option String → Bool
  | none => false
  | some s => s ≠ ""

/-- `assignOwnerMetadata(element, ownerId)` from `useCollaboration.js`
lines 131–152: spreads the existing `customData`, sets
`createdBy = ownerId`; when the owner is the acting identity, stamps its
username and color, otherwise keeps whatever username/color the existing
metadata carried. -/
def assignOwnerMetadata (identity : Identity) (element : Element) (ownerId : String) :
    Element :=
  let existing := element.customData.getD {}
  let withOwner : CustomData := { existing with createdBy := some ownerId }
  let metadata :=
    if ownerId = identity.browserId then
      { withOwner with
          createdByUsername := some identity.username
          createdByColor := some identity.color }
    else
      withOwner
  { element with customData := some metadata }

/-- The `previousMap` lookup in `handleChange`: a JS `Map` built by
`forEach`+`set`, so for duplicate ids the last occurrence wins. -/
def previousLookup (previous : List Element) (id : String) : Option Element :=
  previous.reverse.find? (fun el => el.id = id)

/-- The per-candidate body of the `handleChange` loop
(`useCollaboration.js` lines 550–578): new elements are stamped with the
acting identity; elements whose snapshot entry is unowned or owned by the
actor (or when the actor is an admin) are accepted with the owner
re-stamped; otherwise the previous snapshot element is used in place of
the candidate. -/
def authorizeElement (identity : Identity) (isAdmin : Bool) (previous : List Element)
    (element : Element) : Element :=
  match previousLookup previous element.id with
  | none => assignOwnerMetadata identity element identity.browserId
  | some previousElement =>
    let owner := ownerOf previousElement
    if isAdmin || !(ownerTruthy owner) || owner = some identity.browserId then
      assignOwnerMetadata identity element (owner.getD identity.browserId)
    else
      assignOwnerMetadata identity previousElement (owner.getD identity.browserId)

/-- The deletion pass of `handleChange` (lines 580–592): previous-snapshot
elements absent from the candidate set, not soft-deleted, and owned by a
different non-admin-overridable identity are kept in the save payload.
The JS `push` appends them after the candidate elements. -/
def blockedDeletions (identity : Identity) (isAdmin : Bool) (previous : List Element)
    (elements : List Element) : List Element :=
  let currentElementIds := elements.map (·.id)
  previous.filter (fun prevElement =>
    !(currentElementIds.contains prevElement.id) && !prevElement.isDeleted &&
      (let owner := ownerOf prevElement
       ownerTruthy owner && owner ≠ some identity.browserId && !isAdmin))

/-- The authorized batch `handleChange` stores into `previousSceneRef`:
the per-index authorized elements followed by the blocked deletions
appended by `push`. -/
def authorizeElements (identity : Identity) (isAdmin : Bool) (previous : List Element)
    (elements : List Element) : List Element :=
  elements.map (authorizeElement identity isAdmin previous) ++
    blockedDeletions identity isAdmin previous elements

/-- The pending-save merge inside `fetchCanvasState`
(`useCollaboration.js` lines 278–306): every remote (Firebase) element is
kept unless the local element with the same id has a strictly greater
version; local-only elements are appended after being stamped with the
acting identity's ownership metadata (`decorateElementWithOwner`). -/
def mergeElements (identity : Identity) (fbElements localElements : List Element) :
    List Element :=
  let merged := fbElements.map (fun fbElement =>
    match localElements.find? (fun el => el.id = fbElement.id) with
    | some localElement =>
        if localElement.version > fbElement.version then localElement else fbElement
    | none => fbElement)
  let localOnly := localElements.filter (fun el =>
    !((fbElements.map (·.id)).contains el.id))
  merged ++ localOnly.map (fun el => assignOwnerMetadata identity el identity.browserId)

/-! ## The save scheduler state machine

The coordination refs of `useCollaboration.js` become explicit fields of
`SyncState`; each asynchronous callback (a local `onChange`, the debounce
timeout, a forced flush, a Firebase `set` resolution, the watchdog
timeout) is one atomic step of the single-threaded event loop.
`outstandingWrites` counts Firebase `set(canvasRef, …)` calls that have
been issued but whose promise has not yet settled; `saveCount` counts
saves started; `lastPayload` records the `sceneElements` captured by the
most recently started save. -/

/-- The sync core's coordination state: the `useRef` flags of
`useCollaboration.js` plus instrumentation (`outstandingWrites`,
`saveCount`, `lastPayload`) for the concurrency claims. -/
structure SyncState where
  hasLoadedInitialData : Bool := false
  isApplyingSceneUpdate : Bool := false
  isSaving : Bool := false
  hasPendingSave : Bool := false
  needsResave : Bool := false
  lastSaveStartedAt : Nat := 0
  debounceTimerSet : Bool := false
  previousScene : List Element := []
  outstandingWrites : Nat := 0
  saveCount : Nat := 0
  lastPayload : List Element := []
deriving Repr, DecidableEq

/-- The save-start block of `flushPendingSave` (lines 411–464): clears the
debounce timer, takes the saving lock, stamps the start time, clears the
pending/resave flags, and issues the Firebase write whose payload is the
current `previousSceneRef` snapshot. -/
def startSave (now : Nat) (s : SyncState) : SyncState :=
  { s with
      debounceTimerSet := false
      isSaving := true
      lastSaveStartedAt := now
      hasPendingSave := false
      needsResave := false
      outstandingWrites := s.outstandingWrites + 1
      saveCount := s.saveCount + 1
      lastPayload := s.previousScene }

/-- `flushPendingSave(options)` from `useCollaboration.js` lines 359–512,
with `excalidrawAPI` present (it is captured non-null by the `initialize`
closure). The `Bool` result is `true` when a save was started (the JS
function returned the save promise) and `false` when it returned `null`.
Branches, in source order: the `allowRetry=false` no-op when nothing is
pending; the busy path (`needsResave := true`) when a non-stuck save or a
scene update is in progress; the stuck-lock release (save in flight for
more than 5000 ms) which force-clears the lock, re-marks pending, and
falls through to start a fresh save. -/
def flushPendingSave (allowRetry : Bool) (now : Nat) (s : SyncState) :
    SyncState × Bool :=
  let hasPending := s.hasPendingSave || s.needsResave
  if !hasPending && !allowRetry then (s, false)
  else if s.isSaving && !(decide (now - s.lastSaveStartedAt > 5000)) then
    ({ s with needsResave := true }, false)
  else if !s.isSaving && s.isApplyingSceneUpdate then
    ({ s with needsResave := true }, false)
  else
    let s1 :=
      if s.isSaving then { s with isSaving := false, hasPendingSave := true } else s
    if !s1.hasPendingSave && !s1.needsResave then (s1, false)
    else (startSave now s1, true)

/-- `handleChange(elements, appState)` from `useCollaboration.js` lines
530–619: ignored until initial hydration and while the core is applying
its own scene update; otherwise replaces `previousSceneRef` with the
authorized batch, marks the save pending, sets `needsResave` when a save
is in flight, and (re)starts the debounce timer. -/
def handleChange (identity : Identity) (isAdmin : Bool) (elements : List Element)
    (s : SyncState) : SyncState :=
  if !s.hasLoadedInitialData || s.isApplyingSceneUpdate then s
  else
    { s with
        previousScene := authorizeElements identity isAdmin s.previousScene elements
        hasPendingSave := true
        needsResave := s.isSaving || s.needsResave
        debounceTimerSet := true }

/-- The debounce timeout body (lines 611–618): clears the timer, then
calls `flushPendingSave({reason: debounced, allowRetry: true})` only when
a save is pending and none is in flight. -/
def debounceFire (now : Nat) (s : SyncState) : SyncState :=
  if !s.debounceTimerSet then s
  else
    let s1 := { s with debounceTimerSet := false }
    if s1.hasPendingSave && !s1.isSaving then (flushPendingSave true now s1).1 else s1

/-- Settlement of a Firebase `set` promise: the `.catch` re-marks pending
on failure, the `.finally` releases the saving lock, and when
`needsResave` was set during the save it immediately calls
`flushPendingSave({reason: post-save, allowRetry: false})`
(lines 464–493). A step with no outstanding write is a no-op. -/
def writeComplete (success : Bool) (now : Nat) (s : SyncState) : SyncState :=
  if s.outstandingWrites = 0 then s
  else
    let s1 := { s with outstandingWrites := s.outstandingWrites - 1 }
    let s2 := if success then s1 else { s1 with hasPendingSave := true }
    let s3 := { s2 with isSaving := false }
    let shouldResave := s3.needsResave
    let s4 := { s3 with needsResave := false }
    if shouldResave then (flushPendingSave false now s4).1 else s4

/-- The watchdog timeout (lines 496–509): if the saving lock is still held
more than 8000 ms after the save started, force-release it, re-mark
pending, and resave when `needsResave` was set meanwhile. -/
def watchdogFire (now : Nat) (s : SyncState) : SyncState :=
  if s.isSaving && decide (now - s.lastSaveStartedAt > 8000) then
    let s1 := { s with isSaving := false, hasPendingSave := true }
    let shouldResave := s1.needsResave
    let s2 := { s1 with needsResave := false }
    if shouldResave then (flushPendingSave false now s2).1 else s2
  else s

/-- One event of the cooperative event loop. `forcedFlush` covers the
visibility-change, pagehide, and `saveChanges` (manual) triggers, all of
which call `flushPendingSave` with `allowRetry := false`. -/
inductive SyncEvent where
  | localChange (elements : List Element)
  | debounce (now : Nat)
  | forcedFlush (allowRetry : Bool) (now : Nat)
  | complete (success : Bool) (now : Nat)
  | watchdog (now : Nat)
deriving Repr, DecidableEq

/-- Interpret one event against the sync state. -/
def syncStep (identity : Identity) (isAdmin : Bool) (s : SyncState) :
    SyncEvent → SyncState
  | .localChange elements => handleChange identity isAdmin elements s
  | .debounce now => debounceFire now s
  | .forcedFlush allowRetry now => (flushPendingSave allowRetry now s).1
  | .complete success now => writeComplete success now s
  | .watchdog now => watchdogFire now s

/-- Run a list of events from a state. -/
def syncRun (identity : Identity) (isAdmin : Bool) (s : SyncState)
    (events : List SyncEvent) : SyncState :=
  events.foldl (syncStep identity isAdmin) s

/-- The state after initial hydration, before any local change. -/
def initialSyncState : SyncState :=
  { hasLoadedInitialData := true }

/-- An event is timely when it cannot hit the stuck-lock (5 s) or
watchdog (8 s) force-release: every in-flight save settles before those
thresholds elapse. -/
def timelyEvent (s : SyncState) : SyncEvent → Bool
  | .debounce _ => true
  | .forcedFlush _ now => !(s.isSaving && decide (now - s.lastSaveStartedAt > 5000))
  | .watchdog now => !(s.isSaving && decide (now - s.lastSaveStartedAt > 8000))
  | .localChange _ => true
  | .complete _ _ => true

/-- A trace is timely when each of its events is timely in the state it
fires in. -/
def timelyTrace (identity : Identity) (isAdmin : Bool) :
    SyncState → List SyncEvent → Bool
  | _, [] => true
  | s, e :: rest =>
    timelyEvent s e && timelyTrace identity isAdmin (syncStep identity isAdmin s e) rest

/-- The save-serialization invariant: exactly one Firebase write is
outstanding while the saving lock is held, and none otherwise. -/
def SaveLockInvariant (s : SyncState) : Prop :=
  s.outstandingWrites = if s.isSaving then 1 else 0

/-! ## The poll-driven remote fetch -/

/-- The state touched by `fetchCanvasState`: the fetch/sync guard flags,
the save-pending flag, the Local Snapshot (`previousSceneRef`), and a
mirror of the Excalidraw scene (`localScene`, what
`excalidrawAPI.getSceneElements()` returns and `updateScene` overwrites). -/
structure FetchState where
  isFetchingCanvas : Bool := false
  isSyncing : Bool := false
  isApplyingSceneUpdate : Bool := false
  hasPendingSave : Bool := false
  hasLoadedInitialData : Bool := false
  isLoaded : Bool := false
  previousScene : List Element := []
  localScene : List Element := []
deriving Repr, DecidableEq

/-- A successfully parsed remote canvas document (`data.sceneJSON`). -/
structure RemoteData where
  elements : List Element
deriving Repr, DecidableEq

/-- The `reason` argument of `fetchCanvasState`. -/
inductive FetchReason where
  | initial
  | poll
  | postSave
deriving Repr, DecidableEq

/-- `fetchCanvasState(reason)` from `useCollaboration.js` lines 224–346,
with `excalidrawAPI` present. `remote` is the result of the Firebase
`get` (`none` when the snapshot does not exist). The `Bool` result is
`true` when the store read was issued. Guards in source order: a fetch
already in flight returns immediately; a timer-driven poll returns
immediately while a save is pending. When remote data arrives and the
core is not already syncing, the rendered element set is the remote one,
or — when a save is pending — the per-element merge; the scene and the
Local Snapshot are replaced by it and the guard flags (set for the
500 ms re-entrancy window, then released by its timeout) end the step
cleared, with the fetch lock released in the `finally`. -/
def fetchCanvasState (identity : Identity) (reason : FetchReason)
    (remote : Option RemoteData) (s : FetchState) : FetchState × Bool :=
  if s.isFetchingCanvas then (s, false)
  else if reason = .poll ∧ s.hasPendingSave = true then (s, false)
  else
    match remote with
    | some data =>
      if !s.isSyncing then
        let elementsToRender :=
          if s.hasPendingSave then mergeElements identity data.elements s.localScene
          else data.elements
        ({ s with
            localScene := elementsToRender
            previousScene := elementsToRender
            isSyncing := false
            isApplyingSceneUpdate := false
            isLoaded := true
            hasLoadedInitialData := true
            isFetchingCanvas := false }, true)
      else (s, true)
    | none =>
      ({ s with
          isLoaded := true
          hasLoadedInitialData := true
          isFetchingCanvas := false }, true)

/-! ## The element sanitizer (modelled from the spec)

No element sanitizer exists under `src/`; §4.1 of the spec describes one
(`sanitize(raw) → Element | reject`). The definitions below are modelled
from the spec's words alone. -/

namespace Sanitize

/-- A loosely typed JSON-ish value, the domain of raw element fields.
`nonfinite` stands for `NaN`/`±Infinity`; finite numbers are modelled as
integers. -/
inductive JVal where
  | nul
  | boolv (b : Bool)
  | num (n : Int)
  | nonfinite
  | str (s : String)
  | arr (xs : List JVal)
  | obj (fields : List (String × JVal))

/-- A raw element record; each field is `none` when absent. Only the
fields §4.1 normalizes are modelled. -/
structure RawElement where
  id : Option JVal := none
  type : Option JVal := none
  x : Option JVal := none
  y : Option JVal := none
  width : Option JVal := none
  height : Option JVal := none
  angle : Option JVal := none
  groupIds : Option JVal := none
  boundElements : Option JVal := none
  points : Option JVal := none

/-- Modelled from the spec: §4.1 "coerces non-finite/missing width,
height, x, y, angle to 0" — any value that is not a finite number becomes
0. -/
def coerceNumber : Option JVal → Int
  | some (.num n) => n
  | _ => 0

/-- The string payload of a value, when it is one. -/
def strOf : JVal → Option String
  | .str s => some s
  | _ => none

/-- Modelled from the spec: §4.1 "filters `groupIds` to strings"; a
missing or non-array field yields the empty list. -/
def sanitizeGroupIds : Option JVal → List String
  | some (.arr xs) => xs.filterMap strOf
  | _ => []

/-- First field of an object with the given name. -/
def lookupField (fields : List (String × JVal)) (name : String) : Option JVal :=
  (fields.find? (fun p => p.1 = name)).map (·.2)

/-- A well-formed bound-element entry: an object whose `id` and `type`
fields are strings (§4.1 "well-formed {id,type} pairs"). -/
def bindingOf : JVal → Option (String × String)
  | .obj fields =>
    match lookupField fields "id", lookupField fields "type" with
    | some (.str i), some (.str t) => some (i, t)
    | _, _ => none
  | _ => none

/-- Modelled from the spec: §4.1 — if the `boundElements` field was an
array, keep the well-formed entries (possibly the empty list); otherwise
the canonical value is `null`. -/
def sanitizeBoundElements : Option JVal → JVal
  | some (.arr xs) => .arr (xs.filter (fun x => (bindingOf x).isSome))
  | _ => .nul

/-- A well-formed point: a two-entry array of finite numbers. -/
def pointOf : JVal → Option (Int × Int)
  | .arr [.num a, .num b] => some (a, b)
  | _ => none

/-- §4.1's path-bearing types (line/arrow/freehand; Excalidraw's tag for
freehand strokes is `freedraw`). -/
def isPathType (t : String) : Bool :=
  t = "line" || t = "arrow" || t = "freedraw"

/-- The well-formed points of a raw `points` field (empty when the field
is missing or not an array). -/
def validPoints : Option JVal → List JVal
  | some (.arr xs) => xs.filter (fun p => (pointOf p).isSome)
  | _ => []

/-- Modelled from the spec: §4.1 — for path-bearing types, guarantee at
least a two-point array (the diagonal of the bounding box) when no valid
point exists; for non-path types, keep the filtered points only when the
field held an array, and drop the field entirely otherwise. -/
def sanitizePoints (isPath : Bool) (width height : Int) (v : Option JVal) :
    Option JVal :=
  if isPath then
    let valid := validPoints v
    if valid.isEmpty then
      some (.arr [.arr [.num 0, .num 0], .arr [.num width, .num height]])
    else
      some (.arr valid)
  else
    match v with
    | some (.arr xs) => some (.arr (xs.filter (fun p => (pointOf p).isSome)))
    | _ => none

/-- Modelled from the spec: §4.1 `sanitize(raw) → Element | reject`.
Rejects (`none`) when `id` or `type` is not a well-formed (non-empty)
string; otherwise returns the canonical record: geometry coerced to
finite numbers, `groupIds` filtered to strings, `boundElements` filtered
to well-formed pairs (or `null` when the field was not an array), and for
path-bearing types a guaranteed non-empty point list — degenerating to
the two-point diagonal of the bounding box when no valid point exists —
while non-path types keep their filtered `points` field only when an
array was present. Pure and total by construction: it never throws and
always returns either a canonical element or the explicit rejection
`none`. -/
def sanitize (raw : RawElement) : Option RawElement :=
  match raw.id, raw.type with
  | some (.str i), some (.str t) =>
    if i = "" ∨ t = "" then none
    else
      let width := coerceNumber raw.width
      let height := coerceNumber raw.height
      some {
        id := some (.str i)
        type := some (.str t)
        x := some (.num (coerceNumber raw.x))
        y := some (.num (coerceNumber raw.y))
        width := some (.num width)
        height := some (.num height)
        angle := some (.num (coerceNumber raw.angle))
        groupIds := some (.arr ((sanitizeGroupIds raw.groupIds).map JVal.str))
        boundElements := some (sanitizeBoundElements raw.boundElements)
        points := sanitizePoints (isPathType t) width height raw.points }
  | _, _ => none

end Sanitize

/-! ## Sample data shared by witnesses and counterexamples -/

/-- A sample acting identity. -/
def idA : Identity := { browserId := "userA", username := "alice", color := "#f00" }

/-- A sample element owned by another identity. -/
def elemOwnedByB : Element :=
  { id := "p"
    customData := some
      { createdBy := some "userB"
        createdByUsername := some "bob"
        createdByColor := some "#00f" } }

/-- A sample element owned by the acting identity. -/
def elemOwnedByA : Element :=
  { id := "q", customData := some { createdBy := some "userA" } }

/-- An event trace whose second forced flush arrives 6000 ms after a save
started and that save never settled: the stuck-lock release fires and a
second write is issued while the first is still outstanding. -/
def stuckTrace : List SyncEvent :=
  [.localChange [{ id := "e1" }],
   .forcedFlush false 0,
   .localChange [{ id := "e1", version := 1 }],
   .forcedFlush false 6000]

/-- A timely event trace: every flush fires while no save is in flight or
within the stuck threshold, and the write settles promptly. -/
def timelyTraceSample : List SyncEvent :=
  [.localChange [{ id := "e1" }],
   .forcedFlush false 0,
   .complete true 100,
   .localChange [{ id := "e1", version := 1 }],
   .debounce 700]

/-- A sample raw element for the sanitizer: non-finite x, mixed-type
`groupIds`, non-array `boundElements`, missing points on a path type. -/
def Sanitize.rawSample : Sanitize.RawElement :=
  { id := some (.str "e")
    type := some (.str "line")
    x := some .nonfinite
    groupIds := some (.arr [.str "g", .num 3])
    boundElements := some (.num 1) }

/-- The canonical form `sanitize` produces for `Sanitize.rawSample`. -/
def Sanitize.sanitizedSample : Sanitize.RawElement :=
  { id := some (.str "e")
    type := some (.str "line")
    x := some (.num 0)
    y := some (.num 0)
    width := some (.num 0)
    height := some (.num 0)
    angle := some (.num 0)
    groupIds := some (.arr [.str "g"])
    boundElements := some .nul
    points := some (.arr [.arr [.num 0, .num 0], .arr [.num 0, .num 0]]) }

/-! ## Theorems -/

/-- Stamping an element with its own (non-acting) owner is the identity:
the previous owner id, display name, and color are preserved verbatim. -/
theorem assignOwnerMetadata_fixes (identity : Identity) (e : Element) (o : String)
    (hOwner : ownerOf e = some o) (hNe : o ≠ identity.browserId) :
    assignOwnerMetadata identity e o = e := by
  obtain ⟨cd, hcd, hcb⟩ : ∃ cd, e.customData = some cd ∧ cd.createdBy = some o := by
    unfold ownerOf at hOwner
    cases h : e.customData with
    | none => rw [h] at hOwner; simp at hOwner
    | some cd => rw [h] at hOwner; exact ⟨cd, rfl, hOwner⟩
  unfold assignOwnerMetadata
  rw [hcd]
  simp only [Option.getD_some, if_neg hNe]
  cases e with
  | mk id version isDeleted payload customData =>
    cases cd with
    | mk createdBy createdByUsername createdByColor =>
      simp_all

/-- C7: a timer-driven poll invocation of `fetchCanvasState` that fires
while the save-pending flag is set returns before issuing the store read
and leaves every field of the state — the Local Snapshot, the local
scene, and all coordination flags — unchanged. -/
theorem poll_skipped_when_save_pending (identity : Identity)
    (remote : Option RemoteData) (s : FetchState)
    (hPending : s.hasPendingSave = true) :
    fetchCanvasState identity .poll remote s = (s, false) := by
  cases hf : s.isFetchingCanvas <;>
    simp [fetchCanvasState, hPending, hf]

/-- Witness for C7 at a concrete pending state and non-trivial remote
document. -/
theorem poll_skipped_when_save_pending_witness :
    ({ hasPendingSave := true, localScene := [elemOwnedByA] } : FetchState).hasPendingSave
        = true ∧
    fetchCanvasState idA .poll (some { elements := [elemOwnedByB] })
        { hasPendingSave := true, localScene := [elemOwnedByA] } =
      ({ hasPendingSave := true, localScene := [elemOwnedByA] }, false) :=
  ⟨rfl, poll_skipped_when_save_pending idA (some { elements := [elemOwnedByB] })
      { hasPendingSave := true, localScene := [elemOwnedByA] } rfl⟩

/-- C8: a forced flush (`visibilitychange`, `pagehide`, or the manual
`saveChanges`, all of which pass `allowRetry = false`) invoked while
neither the save-pending flag nor the needs-resave flag is set returns
`null` without issuing a store write or modifying any state. -/
theorem forced_flush_noop (now : Nat) (s : SyncState)
    (hPending : s.hasPendingSave = false) (hResave : s.needsResave = false) :
    flushPendingSave false now s = (s, false) := by
  simp [flushPendingSave, hPending, hResave]

/-- Witness for C8 at the post-hydration initial state. -/
theorem forced_flush_noop_witness :
    initialSyncState.hasPendingSave = false ∧
    initialSyncState.needsResave = false ∧
    flushPendingSave false 0 initialSyncState = (initialSyncState, false) :=
  ⟨rfl, rfl, forced_flush_noop 0 initialSyncState rfl rfl⟩

/-- C5: a candidate element whose id has no entry in the Local Snapshot
is included in the authorized batch at its own index and is stamped with
the acting identity's id as owner, together with the acting identity's
display name and color. -/
theorem new_element_stamped (identity : Identity) (isAdmin : Bool)
    (previous elements : List Element) (i : Nat) (el : Element)
    (hEl : elements[i]? = some el)
    (hNew : previousLookup previous el.id = none) :
    (authorizeElements identity isAdmin previous elements)[i]? =
      some (assignOwnerMetadata identity el identity.browserId) ∧
    (assignOwnerMetadata identity el identity.browserId).customData =
      some { createdBy := some identity.browserId
             createdByUsername := some identity.username
             createdByColor := some identity.color } := by
  have hi : i < elements.length := by
    rcases List.getElem?_eq_some.mp hEl with ⟨h, _⟩
    exact h
  constructor
  · unfold authorizeElements
    rw [List.getElem?_append, if_pos (by simpa using hi), List.getElem?_map, hEl]
    simp [authorizeElement, hNew]
  · simp [assignOwnerMetadata]

/-- Witness for C5: a fresh element appears stamped with the acting
identity. -/
theorem new_element_stamped_witness :
    ([({ id := "n" } : Element)][0]? = some ({ id := "n" } : Element)) ∧
    previousLookup [elemOwnedByB] "n" = none ∧
    (authorizeElements idA false [elemOwnedByB] [{ id := "n" }])[0]? =
      some (assignOwnerMetadata idA { id := "n" } "userA") :=
  ⟨rfl, by decide,
    (new_element_stamped idA false [elemOwnedByB] [{ id := "n" }] 0 { id := "n" }
      rfl (by decide)).1⟩

/-- C10: a candidate element whose Local Snapshot entry exists but has no
`customData.createdBy` is accepted and stamped with the acting identity's
id, display name, and color, so it is no longer unowned after the batch. -/
theorem unowned_element_claimed (identity : Identity) (isAdmin : Bool)
    (previous elements : List Element) (i : Nat) (el prev : Element)
    (hEl : elements[i]? = some el)
    (hPrev : previousLookup previous el.id = some prev)
    (hUnowned : ownerOf prev = none) :
    (authorizeElements identity isAdmin previous elements)[i]? =
      some (assignOwnerMetadata identity el identity.browserId) ∧
    (assignOwnerMetadata identity el identity.browserId).customData =
      some { createdBy := some identity.browserId
             createdByUsername := some identity.username
             createdByColor := some identity.color } := by
  have hi : i < elements.length := by
    rcases List.getElem?_eq_some.mp hEl with ⟨h, _⟩
    exact h
  constructor
  · unfold authorizeElements
    rw [List.getElem?_append, if_pos (by simpa using hi), List.getElem?_map, hEl]
    simp [authorizeElement, hPrev, hUnowned, ownerTruthy]
  · simp [assignOwnerMetadata]

/-- Witness for C10: an element whose snapshot entry lacks `createdBy`
ends up owned by the acting identity. -/
theorem unowned_element_claimed_witness :
    ([({ id := "u", version := 3 } : Element)][0]? =
        some ({ id := "u", version := 3 } : Element)) ∧
    previousLookup [{ id := "u" }] "u" = some { id := "u" } ∧
    ownerOf { id := "u" } = none ∧
    (authorizeElements idA false [{ id := "u" }] [{ id := "u", version := 3 }])[0]? =
      some (assignOwnerMetadata idA { id := "u", version := 3 } "userA") :=
  ⟨rfl, by decide, rfl,
    (unowned_element_claimed idA false [{ id := "u" }] [{ id := "u", version := 3 }]
      0 { id := "u", version := 3 } { id := "u" } rfl (by decide) rfl).1⟩

/-- C1: when a candidate element's Local Snapshot entry is owned
(`customData.createdBy` set, i.e. a truthy string) by an identity other
than the acting one and the actor is not an admin, the authorized batch
holds the previous snapshot element at the candidate's index — the
candidate's modifications are discarded and the previous owner id,
display name, and color survive unchanged. -/
theorem blocked_edit_keeps_previous (identity : Identity)
    (previous elements : List Element) (i : Nat) (el prev : Element) (o : String)
    (hEl : elements[i]? = some el)
    (hPrev : previousLookup previous el.id = some prev)
    (hOwner : ownerOf prev = some o)
    (hSet : o ≠ "")
    (hOther : o ≠ identity.browserId) :
    (authorizeElements identity false previous elements)[i]? = some prev := by
  have hi : i < elements.length := by
    rcases List.getElem?_eq_some.mp hEl with ⟨h, _⟩
    exact h
  unfold authorizeElements
  rw [List.getElem?_append, if_pos (by simpa using hi), List.getElem?_map, hEl,
    Option.map_some']
  simp only [authorizeElement, hPrev, hOwner, Option.getD_some, ownerTruthy]
  rw [if_neg (by simp [hSet, hOther]), assignOwnerMetadata_fixes identity prev o hOwner hOther]

/-- Witness for C1: a non-admin's edit to an element owned by `userB` is
replaced by the untouched snapshot element. -/
theorem blocked_edit_keeps_previous_witness :
    ([({ id := "p", version := 9 } : Element)][0]? =
        some ({ id := "p", version := 9 } : Element)) ∧
    previousLookup [elemOwnedByB] "p" = some elemOwnedByB ∧
    ownerOf elemOwnedByB = some "userB" ∧
    (authorizeElements idA false [elemOwnedByB] [{ id := "p", version := 9 }])[0]? =
      some elemOwnedByB :=
  ⟨rfl, by decide, rfl,
    blocked_edit_keeps_previous idA [elemOwnedByB] [{ id := "p", version := 9 }]
      0 { id := "p", version := 9 } elemOwnedByB "userB" rfl (by decide) rfl
      (by decide) (by decide)⟩

/-- C2: during a pending-save poll merge, an element id present in both
the fetched remote scene and the local scene resolves to the local
element exactly when its version is strictly greater than the remote one
(and to the remote element otherwise), while elements present only
locally are retained with the acting identity's owner metadata stamped. -/
theorem merge_tiebreak (identity : Identity) (fbElements localElements : List Element) :
    (∀ (i : Nat) (fbEl localEl : Element),
      fbElements[i]? = some fbEl →
      localElements.find? (fun el => el.id = fbEl.id) = some localEl →
      (mergeElements identity fbElements localElements)[i]? =
        some (if localEl.version > fbEl.version then localEl else fbEl) ∧
      (localEl ≠ fbEl →
        ((mergeElements identity fbElements localElements)[i]? = some localEl ↔
          localEl.version > fbEl.version))) ∧
    (∀ el ∈ localElements,
      el.id ∉ fbElements.map (·.id) →
      assignOwnerMetadata identity el identity.browserId ∈
        mergeElements identity fbElements localElements) := by
  constructor
  · intro i fbEl localEl hFb hLoc
    have hi : i < fbElements.length := by
      rcases List.getElem?_eq_some.mp hFb with ⟨h, _⟩
      exact h
    have hGet :
        (mergeElements identity fbElements localElements)[i]? =
          some (if localEl.version > fbEl.version then localEl else fbEl) := by
      unfold mergeElements
      rw [List.getElem?_append, if_pos (by simpa using hi), List.getElem?_map, hFb]
      simp [hLoc]
    refine ⟨hGet, fun hNe => ?_⟩
    constructor
    · intro hLocal
      rw [hGet] at hLocal
      by_contra hNotGt
      rw [if_neg hNotGt] at hLocal
      exact hNe (Option.some.inj hLocal).symm
    · intro hGt
      rw [hGet, if_pos hGt]
  · intro el hMem hAbsent
    unfold mergeElements
    refine List.mem_append_right _ ?_
    exact List.mem_map_of_mem _ (List.mem_filter.mpr ⟨hMem, by simpa using hAbsent⟩)

/-- Witness for C2: the newer local revision wins the tie-break and a
local-only element survives the merge with ownership stamped. -/
theorem merge_tiebreak_witness :
    ([({ id := "p", version := 1 } : Element)][0]? =
        some ({ id := "p", version := 1 } : Element)) ∧
    ([({ id := "p", version := 2, payload := 7 } : Element), { id := "n" }].find?
        (fun el => el.id = "p") = some { id := "p", version := 2, payload := 7 }) ∧
    (mergeElements idA [{ id := "p", version := 1 }]
        [{ id := "p", version := 2, payload := 7 }, { id := "n" }])[0]? =
      some { id := "p", version := 2, payload := 7 } ∧
    assignOwnerMetadata idA { id := "n" } "userA" ∈
      mergeElements idA [{ id := "p", version := 1 }]
        [{ id := "p", version := 2, payload := 7 }, { id := "n" }] := by
  refine ⟨rfl, by decide, ?_, ?_⟩
  · have h :=
      ((merge_tiebreak idA [{ id := "p", version := 1 }]
          [{ id := "p", version := 2, payload := 7 }, { id := "n" }]).1
        0 { id := "p", version := 1 } { id := "p", version := 2, payload := 7 }
        rfl (by decide)).1
    simpa using h
  · exact (merge_tiebreak idA [{ id := "p", version := 1 }]
        [{ id := "p", version := 2, payload := 7 }, { id := "n" }]).2
      { id := "n" } (by simp) (by decide)

/-- Counterexample for C3: with snapshot `[elemOwnedByB, elemOwnedByA]`
and a candidate batch from which the non-owned `elemOwnedByB` (snapshot
index 0) was deleted, the blocked deletion is appended at index 1 of the
authorized batch, not reinserted at its original index 0. -/
theorem blocked_deletion_index_counterexample :
    (authorizeElements idA false [elemOwnedByB, elemOwnedByA] [elemOwnedByA])[0]? ≠
        some elemOwnedByB ∧
    (authorizeElements idA false [elemOwnedByB, elemOwnedByA] [elemOwnedByA])[1]? =
        some elemOwnedByB := by
  decide

/-- C3 (amended): a previous-snapshot element absent from the candidate
set, not soft-deleted, owned by another identity, and edited by a
non-admin is reinserted into the outgoing authorized batch — but appended
after all candidate elements (the batch is the authorized candidates
followed by the blocked deletions), not at its original snapshot index. -/
theorem blocked_deletion_appended (identity : Identity)
    (previous elements : List Element) (prev : Element) (o : String)
    (hMem : prev ∈ previous)
    (hAbsent : prev.id ∉ elements.map (·.id))
    (hNotDeleted : prev.isDeleted = false)
    (hOwner : ownerOf prev = some o)
    (hSet : o ≠ "")
    (hOther : o ≠ identity.browserId) :
    prev ∈ blockedDeletions identity false previous elements ∧
    authorizeElements identity false previous elements =
      elements.map (authorizeElement identity false previous) ++
        blockedDeletions identity false previous elements := by
  refine ⟨?_, rfl⟩
  unfold blockedDeletions
  refine List.mem_filter.mpr ⟨hMem, ?_⟩
  simp only [Bool.and_eq_true, Bool.not_eq_true']
  refine ⟨⟨by simpa using hAbsent, by simp [hNotDeleted]⟩, ?_⟩
  simp [hOwner, ownerTruthy, hSet, hOther]

/-- Witness for C3 (amended) at the counterexample's input. -/
theorem blocked_deletion_appended_witness :
    elemOwnedByB ∈ [elemOwnedByB, elemOwnedByA] ∧
    elemOwnedByB.id ∉ [elemOwnedByA].map (·.id) ∧
    elemOwnedByB.isDeleted = false ∧
    ownerOf elemOwnedByB = some "userB" ∧
    elemOwnedByB ∈ blockedDeletions idA false [elemOwnedByB, elemOwnedByA] [elemOwnedByA] :=
  ⟨by simp, by decide, rfl, rfl,
    (blocked_deletion_appended idA [elemOwnedByB, elemOwnedByA] [elemOwnedByA]
      elemOwnedByB "userB" (by simp) (by decide) rfl rfl (by decide) (by decide)).1⟩

/-- Counterexample for C4: after `stuckTrace` — a save started at t=0
that never settles, a concurrent local change, and a forced flush at
t=6000 — the stuck-lock release lets a second write start while the
first is still outstanding: two store writes are in flight at once. -/
theorem at_most_one_save_counterexample :
    (syncRun idA false initialSyncState stuckTrace).outstandingWrites = 2 := by
  decide

/-- `flushPendingSave` preserves the save-serialization invariant when it
cannot hit the stuck-lock release (no in-flight save older than the 5 s
threshold). -/
theorem flushPendingSave_invariant (allowRetry : Bool) (now : Nat) (s : SyncState)
    (hInv : SaveLockInvariant s)
    (hTimely : s.isSaving = true → ¬ (now - s.lastSaveStartedAt > 5000)) :
    SaveLockInvariant (flushPendingSave allowRetry now s).1 := by
  obtain ⟨ld, ap, sv, pe, nr, ls, dt, ps, ow, sc, lp⟩ := s
  cases allowRetry <;> cases sv <;> cases pe <;> cases nr <;> cases ap <;>
    by_cases h5 : now - ls > 5000 <;>
    simp_all [flushPendingSave, startSave, SaveLockInvariant]

/-- One timely event preserves the save-serialization invariant. -/
theorem syncStep_invariant (identity : Identity) (isAdmin : Bool) (s : SyncState)
    (e : SyncEvent) (hInv : SaveLockInvariant s) (hT : timelyEvent s e = true) :
    SaveLockInvariant (syncStep identity isAdmin s e) := by
  obtain ⟨ld, ap, sv, pe, nr, ls, dt, ps, ow, sc, lp⟩ := s
  cases e with
  | localChange elements =>
    cases ld <;> cases ap <;> cases sv <;>
      simp_all [syncStep, handleChange, SaveLockInvariant]
  | debounce now =>
    cases dt <;> cases pe <;> cases sv <;> cases ap <;> cases nr <;>
      by_cases h5 : now - ls > 5000 <;>
      simp_all [syncStep, debounceFire, flushPendingSave, startSave, SaveLockInvariant]
  | forcedFlush a now =>
    cases a <;> cases sv <;> cases pe <;> cases nr <;> cases ap <;>
      by_cases h5 : now - ls > 5000 <;>
      simp_all [syncStep, timelyEvent, flushPendingSave, startSave, SaveLockInvariant]
  | complete succ now =>
    cases succ <;> cases sv <;> cases pe <;> cases nr <;> cases ap <;>
      by_cases h5 : now - ls > 5000 <;>
      simp_all [syncStep, writeComplete, flushPendingSave, startSave, SaveLockInvariant]
  | watchdog now =>
    simp only [syncStep, watchdogFire]
    simp only [timelyEvent, Bool.not_eq_true'] at hT
    rw [if_neg (by simp [hT])]
    exact hInv

/-- C4 (amended): across any interleaving of local changes, debounce
firings, forced flushes, write completions, and watchdog checks, at most
one store write is outstanding at any time — provided the trace is
timely, i.e. no in-flight save outlives the 5 s stuck threshold or the
8 s watchdog. (The unamended claim fails: a stuck-lock release starts a
second write while the abandoned one is still outstanding, see the
counterexample.) -/
theorem at_most_one_save_timely (identity : Identity) (isAdmin : Bool)
    (events : List SyncEvent)
    (hT : timelyTrace identity isAdmin initialSyncState events = true) :
    (syncRun identity isAdmin initialSyncState events).outstandingWrites ≤ 1 := by
  have main : ∀ (evs : List SyncEvent) (s : SyncState), SaveLockInvariant s →
      timelyTrace identity isAdmin s evs = true →
      SaveLockInvariant (syncRun identity isAdmin s evs) := by
    intro evs
    induction evs with
    | nil => intro s hs _; simpa [syncRun] using hs
    | cons e rest ih =>
      intro s hs ht
      simp only [timelyTrace, Bool.and_eq_true] at ht
      simp only [syncRun, List.foldl_cons]
      exact ih _ (syncStep_invariant identity isAdmin s e hs ht.1) ht.2
  have h := main events initialSyncState (by simp [SaveLockInvariant, initialSyncState]) hT
  unfold SaveLockInvariant at h
  rw [h]
  split <;> omega

/-- Witness for C4 (amended): a concrete timely trace keeps at most one
write outstanding. -/
theorem at_most_one_save_timely_witness :
    timelyTrace idA false initialSyncState timelyTraceSample = true ∧
    (syncRun idA false initialSyncState timelyTraceSample).outstandingWrites ≤ 1 :=
  ⟨by decide, at_most_one_save_timely idA false timelyTraceSample (by decide)⟩

/-- C6: when a local change lands while a save is in flight, the step
that completes that save immediately starts exactly one more save — no
debounce event is needed, the saving lock is re-held at once, its payload
is the latest authorized Local Snapshot (the batch produced by the
change, not the payload captured at the first save's start), and a later
debounce firing starts no further save. -/
theorem resave_on_conflict (identity : Identity) (isAdmin : Bool)
    (elements : List Element) (s : SyncState) (now now' : Nat)
    (hLoaded : s.hasLoadedInitialData = true)
    (hApply : s.isApplyingSceneUpdate = false)
    (hSaving : s.isSaving = true)
    (hOut : s.outstandingWrites = 1) :
    (syncRun identity isAdmin s [.localChange elements, .complete true now]).saveCount
        = s.saveCount + 1 ∧
    (syncRun identity isAdmin s [.localChange elements, .complete true now]).isSaving
        = true ∧
    (syncRun identity isAdmin s [.localChange elements, .complete true now]).lastPayload
        = authorizeElements identity isAdmin s.previousScene elements ∧
    (syncRun identity isAdmin s
        [.localChange elements, .complete true now, .debounce now']).saveCount
        = s.saveCount + 1 := by
  obtain ⟨ld, ap, sv, pe, nr, ls, dt, ps, ow, sc, lp⟩ := s
  simp only at hLoaded hApply hSaving hOut
  subst hLoaded hApply hSaving hOut
  simp [syncRun, syncStep, handleChange, writeComplete, flushPendingSave, startSave,
    debounceFire]

/-- Witness for C6 at a concrete in-flight-save state. -/
theorem resave_on_conflict_witness :
    ({ hasLoadedInitialData := true, isSaving := true, outstandingWrites := 1,
       saveCount := 1 } : SyncState).isSaving = true ∧
    (syncRun idA false
        { hasLoadedInitialData := true, isSaving := true, outstandingWrites := 1,
          saveCount := 1 }
        [.localChange [{ id := "e1", version := 2 }], .complete true 100]).saveCount = 2 ∧
    (syncRun idA false
        { hasLoadedInitialData := true, isSaving := true, outstandingWrites := 1,
          saveCount := 1 }
        [.localChange [{ id := "e1", version := 2 }], .complete true 100]).lastPayload
      = authorizeElements idA false [] [{ id := "e1", version := 2 }] := by
  have h := resave_on_conflict idA false [{ id := "e1", version := 2 }]
    { hasLoadedInitialData := true, isSaving := true, outstandingWrites := 1,
      saveCount := 1 } 100 700 rfl rfl rfl rfl
  exact ⟨rfl, h.1, h.2.2.1⟩

namespace Sanitize

/-- Re-reading a list of canonical string values recovers the strings. -/
theorem filterMap_strOf_map_str (l : List String) :
    (l.map JVal.str).filterMap strOf = l := by
  induction l with
  | nil => rfl
  | cons a rest ih => simp [strOf, ih]

/-- Sanitizing the canonical `groupIds` value is the identity. -/
theorem sanitizeGroupIds_canonical (v : Option JVal) :
    sanitizeGroupIds (some (.arr ((sanitizeGroupIds v).map JVal.str))) =
      sanitizeGroupIds v :=
  filterMap_strOf_map_str _

/-- Filtering twice with the same predicate filters once. -/
theorem filter_twice {α : Type} (p : α → Bool) (l : List α) :
    (l.filter p).filter p = l.filter p := by
  induction l with
  | nil => rfl
  | cons a rest ih => cases h : p a <;> simp [List.filter_cons, h, ih]

/-- Sanitizing the canonical `boundElements` value is the identity. -/
theorem sanitizeBoundElements_canonical (v : Option JVal) :
    sanitizeBoundElements (some (sanitizeBoundElements v)) =
      sanitizeBoundElements v := by
  cases v with
  | none => rfl
  | some x =>
    cases x with
    | arr xs => simp [sanitizeBoundElements, filter_twice]
    | nul => rfl
    | boolv b => rfl
    | num n => rfl
    | nonfinite => rfl
    | str s => rfl
    | obj fields => rfl

/-- Sanitizing the canonical `points` value is the identity. -/
theorem sanitizePoints_canonical (isPath : Bool) (w h : Int) (v : Option JVal) :
    sanitizePoints isPath w h (sanitizePoints isPath w h v) =
      sanitizePoints isPath w h v := by
  cases isPath with
  | false =>
    cases v with
    | none => rfl
    | some x =>
      cases x with
      | arr xs => simp [sanitizePoints, filter_twice]
      | nul => rfl
      | boolv b => rfl
      | num n => rfl
      | nonfinite => rfl
      | str s => rfl
      | obj fields => rfl
  | true =>
    by_cases hE : (validPoints v).isEmpty = true
    · have h1 : sanitizePoints true w h v =
          some (.arr [.arr [.num 0, .num 0], .arr [.num w, .num h]]) := by
        simp only [sanitizePoints, if_true]
        rw [if_pos hE]
      rw [h1]
      rfl
    · have hv : validPoints (some (.arr (validPoints v))) = validPoints v := by
        cases v with
        | none => rfl
        | some x =>
          cases x with
          | arr xs => simp [validPoints, filter_twice]
          | nul => rfl
          | boolv b => rfl
          | num n => rfl
          | nonfinite => rfl
          | str s => rfl
          | obj fields => rfl
      have h1 : sanitizePoints true w h v = some (.arr (validPoints v)) := by
        simp only [sanitizePoints, if_true]
        rw [if_neg hE]
      rw [h1]
      simp only [sanitizePoints, if_true]
      rw [hv, if_neg hE]

/-- C9: the element sanitizer is idempotent — for every raw input it
accepts, sanitizing the canonical result changes nothing. (Purity and
totality hold by construction: `sanitize` is a total function into
`Option RawElement`, returning the canonical element or the explicit
rejection `none`, and cannot throw.) -/
theorem sanitize_idempotent (x y : RawElement) (h : sanitize x = some y) :
    sanitize y = some y := by
  unfold sanitize at h
  split at h
  case h_2 => exact absurd h (by simp)
  case h_1 i t hid hty =>
    split at h
    case isTrue => exact absurd h (by simp)
    case isFalse hcond =>
      rw [Option.some.injEq] at h
      subst h
      unfold sanitize
      simp only
      rw [if_neg hcond]
      simp [coerceNumber, sanitizeGroupIds_canonical, sanitizeBoundElements_canonical,
        sanitizePoints_canonical]

/-- Witness for C9: a concrete accepted raw record reaches a fixpoint in
one step. -/
theorem sanitize_idempotent_witness :
    sanitize rawSample = some sanitizedSample ∧
    sanitize sanitizedSample = some sanitizedSample :=
  ⟨rfl, sanitize_idempotent rawSample sanitizedSample rfl⟩

end Sanitize

end Freedraw
